import Mathlib

/-!
Shallow embedding of the GDB pretty-printer source `src/absl.py`.

Strings are modelled as `List Char` (Python `str`); Python exceptions as the
`PyErr` type, where `gdbError` models `gdb.error`, `valueError` models
`ValueError` and `otherExc` models every other exception class; fallible code
returns `Except PyErr`.
-/

/-- Python exception classes relevant to `absl.py`: `gdb.error`, `ValueError`,
and a catch-all constructor for every other exception class. -/
inductive PyErr where
  | gdbError (msg : List Char)
  | valueError (msg : List Char)
  | otherExc (msg : List Char)
  deriving DecidableEq

/-- The configured abseil inline-namespace version string (src/absl.py line 13). -/
def ABSL_OPTION_INLINE_NAMESPACE_NAME : List Char := "lts_20240116".data

/-- Python `haystack.find(needle)`: the index of the first occurrence of
`needle` in `haystack`, with `none` standing for Python's `-1`. -/
def findSub (pat : List Char) : List Char → Option Nat
  | [] => if pat.isPrefixOf [] then some 0 else none
  | c :: rest =>
    if pat.isPrefixOf (c :: rest) then some 0
    else (findSub pat rest).map (· + 1)

/-- The source function `absl_insert_version_after_absl` (src/absl.py lines 85-97): insert the
version inline namespace after the first `absl::` found in the given string,
raising `ValueError` when the token is absent. -/
def absl_insert_version_after_absl (cpp_name : List Char) : Except PyErr (List Char) :=
  let absl_ns_str := "absl::".data
  match findSub absl_ns_str cpp_name with
  | none => .error (.valueError ("No `absl` namespace found in ".data ++ cpp_name))
  | some absl_ns_start =>
    let absl_ns_end := absl_ns_start + absl_ns_str.length
    .ok (cpp_name.take absl_ns_end ++ ABSL_OPTION_INLINE_NAMESPACE_NAME ++ "::".data
          ++ cpp_name.drop absl_ns_end)

/-- Inner loop of `find_match_brackets` (src/absl.py lines 284-293): scan the
characters after the first opening bracket, tracking the absolute position
`idx` and the open-bracket balance `count`. -/
def find_match_loop (opening closing : Char) : List Char → Nat → Int → Int
  | [], _, _ => -1
  | c :: rest, idx, count =>
    let count2 : Int :=
      if c = opening then count + 1 else if c = closing then count - 1 else count
    if count2 = 0 then Int.ofNat idx else find_match_loop opening closing rest (idx + 1) count2

/-- The source function `find_match_brackets` (src/absl.py lines 267-295): the index of the closing
bracket that matches the first opening bracket, `-1` when there is none. -/
def find_match_brackets (search : List Char) (opening closing : Char) : Int :=
  match findSub [opening] search with
  | none => -1
  | some index => find_match_loop opening closing (search.drop (index + 1)) (index + 1) 1

/-- One registered subprinter (`MongoSubPrettyPrinter`, src/absl.py lines
298-306): its name, registered type-name prefix string, whether it is a
templated-prefix entry, the `enabled` flag inherited from gdb, and an
identifier standing for the printer class it would construct. -/
structure SubPrinter where
  spName : List Char
  regPrefix : List Char
  isTemplate : Bool
  enabled : Bool
  printerId : Nat
  deriving DecidableEq

/-- Loop of `MongoPrettyPrinterCollection.__call__` (src/absl.py lines
335-346): try each registered subprinter in registration order and return the
first match. -/
def collection_call_loop (index : Int) (lookup_tag : List Char) :
    List SubPrinter → Option Nat
  | [] => none
  | p :: rest =>
    if p.enabled = false then collection_call_loop index lookup_tag rest
    else if p.isTemplate then
      if index + 1 = Int.ofNat lookup_tag.length ∧ findSub p.regPrefix lookup_tag = some 0 then
        some p.printerId
      else collection_call_loop index lookup_tag rest
    else if lookup_tag = p.regPrefix then some p.printerId
    else collection_call_loop index lookup_tag rest

/-- The source function `MongoPrettyPrinterCollection.__call__` (src/absl.py lines 323-346), after
the value's type name `lookup_tag` has been resolved: dispatch it against the
registered subprinters, returning the matched printer identifier if any. -/
def collection_call (printers : List SubPrinter) (lookup_tag : List Char) : Option Nat :=
  collection_call_loop (find_match_brackets lookup_tag '<' '>') lookup_tag printers

/-- Removal of the first occurrence of a substring by string search, the
stripping operation named by the spec's Name-Resolver round-trip property
(spec.md section 8, item 4); it is the plain-string inverse the spec pairs
with `absl_insert_version_after_absl`. -/
def removeFirst (pat s : List Char) : List Char :=
  match findSub pat s with
  | none => s
  | some n => s.take n ++ s.drop (n + pat.length)

/-- The full inserted token: version namespace followed by `::`. -/
def version_token : List Char := ABSL_OPTION_INLINE_NAMESPACE_NAME ++ "::".data

lemma findSub_eq_none_iff (pat s : List Char) : findSub pat s = none ↔ ¬ pat <:+: s := by
  induction s with
  | nil =>
    simp [findSub, List.isPrefixOf_iff_prefix]
  | cons c t ih =>
    by_cases h : pat.isPrefixOf (c :: t)
    · simp only [findSub, if_pos h]
      rw [ List.isPrefixOf_iff_prefix] at h
      simp [h.isInfix]
    · simp only [findSub, if_neg h, Option.map_eq_none']
      rw [ List.isPrefixOf_iff_prefix] at h
      rw [ih, List.infix_cons_iff]
      tauto

lemma findSub_eq_some_zero_iff (pat s : List Char) : findSub pat s = some 0 ↔ pat <+: s := by
  cases s with
  | nil =>
    by_cases h : pat.isPrefixOf ([] : List Char) <;>
      simp_all [findSub, List.isPrefixOf_iff_prefix]
  | cons c t =>
    by_cases h : pat.isPrefixOf (c :: t)
    · rw [ List.isPrefixOf_iff_prefix] at h
      simp [findSub, List.isPrefixOf_iff_prefix, h]
    · have h2 := h
      rw [ List.isPrefixOf_iff_prefix] at h2
      simp only [findSub, if_neg h]
      constructor
      · intro hmap
        rcases Option.map_eq_some'.mp hmap with ⟨m, _, hm⟩
        omega
      · intro hp
        exact absurd hp h2

lemma findSub_intro (pat s : List Char) (n : Nat)
    (h1 : pat <+: s.drop n) (h2 : ∀ m, m < n → ¬ pat <+: s.drop m) :
    findSub pat s = some n := by
  induction s generalizing n with
  | nil =>
    have hn : n = 0 := by
      by_contra hne
      exact h2 0 (Nat.pos_of_ne_zero hne) (by simpa using h1)
    subst hn
    simp only [List.drop_nil] at h1
    simp [findSub, List.isPrefixOf_iff_prefix, h1]
  | cons c t ih =>
    cases n with
    | zero =>
      simp only [List.drop_zero] at h1
      simp [findSub, List.isPrefixOf_iff_prefix, h1]
    | succ m =>
      have hnot : ¬ pat.isPrefixOf (c :: t) := by
        rw [ List.isPrefixOf_iff_prefix]
        exact h2 0 (Nat.succ_pos m)
      simp only [findSub, if_neg hnot]
      have hrec : findSub pat t = some m := by
        apply ih
        · simpa using h1
        · intro j hj hpre
          exact h2 (j + 1) (by omega) (by simpa using hpre)
      simp [hrec]

/-- C7: for every input string in which the token `absl::` does not occur,
`absl_insert_version_after_absl` fails fast with a `ValueError` (the
malformed-type-name failure, a class distinct from the `gdb.error`
type-not-found failures recognised by `isTypeNotFound`), performing no type
lookup: the function consults no lookup oracle at all. -/
theorem C7_malformed_fails_fast (s : List Char)
    (h : ¬ ("absl::".data <:+: s)) :
    absl_insert_version_after_absl s =
      .error (.valueError ("No `absl` namespace found in ".data ++ s)) := by
  have hfind : findSub "absl::".data s = none := (findSub_eq_none_iff _ _).mpr h
  simp [absl_insert_version_after_absl, hfind]

/-- C7 witness: the theorem applied to the concrete input `std::vector<int>`,
which contains no `absl::` token. -/
theorem C7_witness :
    absl_insert_version_after_absl "std::vector<int>".data =
      .error (.valueError ("No `absl` namespace found in std::vector<int>".data)) := by
  have h := C7_malformed_fails_fast "std::vector<int>".data (by decide)
  simpa using h

lemma findSub_sound (pat s : List Char) (n : Nat)
    (h : findSub pat s = some n) : pat <+: s.drop n := by
  induction s generalizing n with
  | nil =>
    by_cases hp : pat.isPrefixOf ([] : List Char)
    · simp only [findSub, if_pos hp, Option.some.injEq] at h
      rw [ List.isPrefixOf_iff_prefix] at hp
      simpa [← h] using hp
    · simp only [findSub, if_neg hp] at h
      exact Option.noConfusion h
  | cons c t ih =>
    by_cases hp : pat.isPrefixOf (c :: t)
    · simp only [findSub, if_pos hp, Option.some.injEq] at h
      rw [ List.isPrefixOf_iff_prefix] at hp
      simpa [← h] using hp
    · simp only [findSub, if_neg hp] at h
      rcases Option.map_eq_some'.mp h with ⟨m, hm, hmn⟩
      have := ih m hm
      subst hmn
      simpa using this

lemma collection_call_single_template_iff (nm pfx tag : List Char) (id : Nat) :
    collection_call [⟨nm, pfx, true, true, id⟩] tag = some id ↔
      (find_match_brackets tag '<' '>' + 1 = Int.ofNat tag.length ∧ pfx <+: tag) := by
  have hred : collection_call [⟨nm, pfx, true, true, id⟩] tag =
      (if find_match_brackets tag '<' '>' + 1 = Int.ofNat tag.length ∧
          findSub pfx tag = some 0 then some id else none) := by
    simp [collection_call, collection_call_loop]
  rw [hred]
  constructor
  · intro h
    split_ifs at h with hcond
    exact ⟨hcond.1, (findSub_eq_some_zero_iff _ _).mp hcond.2⟩
  · rintro ⟨h1, h2⟩
    rw [if_pos ⟨h1, (findSub_eq_some_zero_iff _ _).mpr h2⟩]

/-- C2 counterexample: with registered templated prefix `lib::Map`, the
dispatcher `collection_call` DOES match the type name `lib::MapExtra<int>`
(the closing bracket is the last character and the name merely starts with the
prefix), although the text up to the first `<` is `lib::MapExtra`, which
differs from the registered prefix — refuting the claim that a match requires
the text up to the first `<` to equal the prefix. -/
theorem C2_counterexample :
    collection_call [⟨"m".data, "lib::Map".data, true, true, 0⟩] "lib::MapExtra<int>".data
      = some 0 ∧
    "lib::MapExtra<int>".data.takeWhile (fun c => decide (c ≠ '<')) ≠ "lib::Map".data := by
  decide

/-- C2 (amended): for a registered templated prefix, the dispatcher matches a
type name iff the closing bracket pairing the first `<` is the last character
of the name AND the name STARTS WITH the registered prefix (`str.find(p) == 0`
in the source, not equality of the text up to the first `<`); in particular
`lib::Map` matches `lib::Map<int,int>`, does not match
`lib::Map<int,int>::iterator`, and also matches `lib::MapExtra<int>`. -/
theorem C2_dispatcher_match (nm pfx tag : List Char) (id : Nat) :
    (collection_call [⟨nm, pfx, true, true, id⟩] tag = some id ↔
      (find_match_brackets tag '<' '>' + 1 = Int.ofNat tag.length ∧ pfx <+: tag)) ∧
    collection_call [⟨nm, "lib::Map".data, true, true, id⟩] "lib::Map<int,int>".data
      = some id ∧
    collection_call [⟨nm, "lib::Map".data, true, true, id⟩]
      "lib::Map<int,int>::iterator".data = none ∧
    collection_call [⟨nm, "lib::Map".data, true, true, id⟩] "lib::MapExtra<int>".data
      = some id := by
  refine ⟨collection_call_single_template_iff nm pfx tag id, ?_, ?_, ?_⟩
  · exact (collection_call_single_template_iff nm "lib::Map".data _ id).mpr
      ⟨by decide, by decide⟩
  · simp [collection_call, collection_call_loop]
    decide
  · exact (collection_call_single_template_iff nm "lib::Map".data _ id).mpr
      ⟨by decide, by decide⟩

/-- C2 witness: the amended dispatcher theorem applied at the concrete
registration of prefix `lib::Map` as printer 3 and the concrete type name
`lib::Map<int,int>`. -/
theorem C2_witness :
    collection_call [⟨"map".data, "lib::Map".data, true, true, 3⟩] "lib::Map<int,int>".data
      = some 3 :=
  (C2_dispatcher_match "map".data "lib::Map".data "lib::Map<int,int>".data 3).2.1

lemma absl_insert_eq_of_findSub (s : List Char) (n : Nat)
    (h : findSub "absl::".data s = some n) :
    absl_insert_version_after_absl s =
      .ok (s.take (n + 6) ++ version_token ++ s.drop (n + 6)) := by
  unfold absl_insert_version_after_absl
  simp only [h]
  have h6 : ("absl::".data).length = 6 := rfl
  simp [version_token, h6, List.append_assoc]

/-- C3 counterexample: on the input `absl::node_hash_map<absl::Pair<K,V>,V>`,
which contains the root token both at the outer level and inside the bracketed
template-argument substring, a call to `absl_insert_version_after_absl`
re-qualifies only the outer occurrence: the result does not contain the
re-qualified nested name `absl::lts_20240116::Pair`, refuting the claim that
both occurrences receive the inline version namespace. -/
theorem C3_counterexample :
    absl_insert_version_after_absl "absl::node_hash_map<absl::Pair<K,V>,V>".data
      = .ok "absl::lts_20240116::node_hash_map<absl::Pair<K,V>,V>".data ∧
    ¬ ("absl::lts_20240116::Pair".data <:+:
        "absl::lts_20240116::node_hash_map<absl::Pair<K,V>,V>".data) := by
  constructor
  · rfl
  · decide

/-- C3 (amended): a single call to `absl_insert_version_after_absl` inserts the
inline version namespace ONLY after the first occurrence of the root token
`absl::`; nested template-argument occurrences are left unchanged. Both
occurrences are re-qualified exactly when the function is applied
independently to the outer wrapper name and to the bracketed template-argument
substring (as `absl_get_settings` does), each application inserting the
version namespace after the first root token of its own fragment. -/
theorem C3_version_insertion (s1 s2 : List Char) (n1 n2 : Nat)
    (h1 : findSub "absl::".data s1 = some n1)
    (h2 : findSub "absl::".data s2 = some n2) :
    absl_insert_version_after_absl s1 =
      .ok (s1.take (n1 + 6) ++ version_token ++ s1.drop (n1 + 6)) ∧
    absl_insert_version_after_absl s2 =
      .ok (s2.take (n2 + 6) ++ version_token ++ s2.drop (n2 + 6)) ∧
    (s1.take (n1 + 6) ++ version_token ++ s1.drop (n1 + 6)) ++
      (s2.take (n2 + 6) ++ version_token ++ s2.drop (n2 + 6)) =
      s1.take (n1 + 6) ++ version_token ++
        (s1.drop (n1 + 6) ++ s2.take (n2 + 6) ++ version_token ++ s2.drop (n2 + 6)) := by
  refine ⟨absl_insert_eq_of_findSub s1 n1 h1, absl_insert_eq_of_findSub s2 n2 h2, ?_⟩
  simp [List.append_assoc]

/-- C3 witness: the amended theorem applied to the outer fragment
`absl::node_hash_map` and the bracketed argument fragment
`<absl::Pair<K,V>,V>`, each of which gets its first (and only relevant) root
token re-qualified. -/
theorem C3_witness :
    absl_insert_version_after_absl "absl::node_hash_map".data
      = .ok "absl::lts_20240116::node_hash_map".data ∧
    absl_insert_version_after_absl "<absl::Pair<K,V>,V>".data
      = .ok "<absl::lts_20240116::Pair<K,V>,V>".data := by
  have h := C3_version_insertion "absl::node_hash_map".data "<absl::Pair<K,V>,V>".data 0 1
    (by decide) (by decide)
  exact ⟨by rw [h.1]; rfl, by rw [h.2.1]; rfl⟩

lemma version_token_no_self_overlap :
    ∀ r : Nat, r < 14 → 0 < r → ¬ (version_token.drop r <+: version_token) := by
  decide

lemma version_token_length : version_token.length = 14 := rfl

lemma findSub_at_append (V A B : List Char)
    (hoverlap : ∀ r : Nat, 0 < r → r < V.length → ¬ (V.drop r <+: V))
    (hnot : ¬ (V <:+: A)) :
    findSub V (A ++ V ++ B) = some A.length := by
  apply findSub_intro
  · rw [ List.append_assoc, List.drop_left]
    exact List.prefix_append V B
  · intro m hm hpre
    rw [ List.append_assoc, List.drop_append_of_le_length (le_of_lt hm)] at hpre
    have hlenX : (A.drop m).length = A.length - m := List.length_drop m A
    have hrpos : 0 < (A.drop m).length := by omega
    by_cases hle : V.length ≤ (A.drop m).length
    · have hVX : V <+: A.drop m :=
        List.prefix_of_prefix_length_le hpre ( List.prefix_append (A.drop m) (V ++ B)) hle
      exact hnot ( List.infix_iff_prefix_suffix.mpr ⟨A.drop m, hVX, List.drop_suffix m A⟩)
    · push_neg at hle
      have hXV : A.drop m <+: V :=
        List.prefix_of_prefix_length_le ( List.prefix_append (A.drop m) (V ++ B)) hpre
          (le_of_lt hle)
      obtain ⟨t, ht⟩ := hXV
      have htd : t = V.drop (A.drop m).length := by
        rw [← ht, List.drop_left]
      rw [← ht] at hpre
      have ht2 : t <+: V ++ B := by
        have := ( List.prefix_append_right_inj (A.drop m)).mp hpre
        rwa [ht] at this
      have hlt : t.length ≤ V.length := by
        rw [htd]
        simp
      have htV : t <+: V :=
        List.prefix_of_prefix_length_le ht2 ( List.prefix_append V B) hlt
      exact hoverlap (A.drop m).length hrpos hle (htd ▸ htV)

/-- C9 counterexample: for the input `lts_20240116::absl::X`, which contains
the root token `absl::`, inserting the version namespace and then stripping
the inserted version-token substring by string search/removal does NOT recover
the original input, because the search finds the pre-existing copy of the
version token instead of the inserted one. -/
theorem C9_counterexample :
    absl_insert_version_after_absl "lts_20240116::absl::X".data
      = .ok "lts_20240116::absl::lts_20240116::X".data ∧
    removeFirst version_token "lts_20240116::absl::lts_20240116::X".data
      = "absl::lts_20240116::X".data ∧
    removeFirst version_token "lts_20240116::absl::lts_20240116::X".data
      ≠ "lts_20240116::absl::X".data := by
  refine ⟨rfl, rfl, ?_⟩
  decide

/-- C9 (amended): inserting the version token with
`absl_insert_version_after_absl` and then removing the first occurrence of the
inserted version-token substring (by string search/removal) recovers the
original input exactly, for every input containing the root token `absl::`
(in outer or nested positions alike) PROVIDED the version-token substring
`lts_20240116::` does not already occur in the input before the insertion
point (that is, within the input's prefix ending at the first `absl::`); in
particular for every such input that does not contain the version token at
all. -/
theorem C9_round_trip (s out : List Char) (n : Nat)
    (hfind : findSub "absl::".data s = some n)
    (hout : absl_insert_version_after_absl s = .ok out)
    (hclean : ¬ (version_token <:+: s.take (n + 6))) :
    removeFirst version_token out = s := by
  have hout2 := absl_insert_eq_of_findSub s n hfind
  rw [hout] at hout2
  have hEq : out = s.take (n + 6) ++ version_token ++ s.drop (n + 6) :=
    Except.ok.inj hout2
  subst hEq
  have hfs : findSub version_token (s.take (n + 6) ++ version_token ++ s.drop (n + 6))
      = some (s.take (n + 6)).length := by
    apply findSub_at_append
    · intro r hr0 hrl
      exact version_token_no_self_overlap r (by rw [version_token_length] at hrl; exact hrl) hr0
    · exact hclean
  unfold removeFirst
  rw [hfs]
  dsimp only
  have htake : (s.take (n + 6) ++ version_token ++ s.drop (n + 6)).take
      (s.take (n + 6)).length = s.take (n + 6) := by
    rw [ List.append_assoc, List.take_left]
  have hdrop : (s.take (n + 6) ++ version_token ++ s.drop (n + 6)).drop
      ((s.take (n + 6)).length + version_token.length) = s.drop (n + 6) := by
    rw [ List.drop_left' (by simp)]
  rw [htake, hdrop]
  exact List.take_append_drop (n + 6) s

/-- C9 witness: the round-trip theorem applied to the concrete input
`absl::node_hash_map<absl::Pair<K,V>,V>`, which contains the root token in
both outer and nested template-argument positions and no pre-existing version
token. -/
theorem C9_witness :
    removeFirst version_token "absl::lts_20240116::node_hash_map<absl::Pair<K,V>,V>".data
      = "absl::node_hash_map<absl::Pair<K,V>,V>".data :=
  C9_round_trip "absl::node_hash_map<absl::Pair<K,V>,V>".data
    "absl::lts_20240116::node_hash_map<absl::Pair<K,V>,V>".data 0
    (by decide) rfl (by decide)

/-- The name of a type as resolved by gdb; types are identified by their
resolved names in this model. -/
abbrev GdbType := List Char

/-- A gdb value as seen through the layout oracle: a scalar leaf, a pointer to
another value, or a structure with named fields. -/
inductive GVal where
  | base (tag : Nat)
  | ptr (v : GVal)
  | struct (fields : List (List Char × GVal))

/-- Python `value["name"]`: read a named field of a structured gdb value,
raising `gdb.error` when the field (or the structure) is missing. -/
def GVal.getField : GVal → List Char → Except PyErr GVal
  | .struct fs, fname =>
    match fs.lookup fname with
    | some v => .ok v
    | none => .error (.gdbError ("There is no member named ".data ++ fname))
  | _, fname => .error (.gdbError ("There is no member named ".data ++ fname))

/-- Python `value.dereference()`: follow a pointer value. -/
def GVal.dereference : GVal → Except PyErr GVal
  | .ptr v => .ok v
  | _ => .error (.gdbError "Attempt to take contents of a non-pointer value.".data)

/-- The resolved `CommonFields` value of a table (the result of
`absl_get_settings`): its `capacity_` field, the contents of its `control_`
byte array as signed integers, the contents of its `slots_` array already
viewed through the cast to the table's `slot_type` pointer, and the outcome of
reading the nested field chain `settings["compressed_tuple_"]["value"]` (an
`Except`, since in the source that read may raise). -/
structure Settings where
  capacity_ : Nat
  control_ : List Int
  slots_ : List GVal
  compressed_tuple_value : Except PyErr Nat

/-- The source function `absl_container_size` (src/absl.py lines 129-133): return
`settings["compressed_tuple_"]["value"]`, falling back to
`settings["capacity_"]` when reading that chain raises ANY exception (the
bare `except:` of the source catches every exception class). -/
def absl_container_size (settings : Settings) : Nat :=
  match settings.compressed_tuple_value with
  | .ok n => n
  | .error _ => settings.capacity_

/-- The control byte at index `i` (defaulting outside the modelled contents). -/
def ctrlAt (settings : Settings) (i : Nat) : Int := (settings.control_[i]?).getD 0

/-- The slot value at index `i` (defaulting outside the modelled contents). -/
def slotAt (settings : Settings) (i : Nat) : GVal := (settings.slots_[i]?).getD (.base 0)

/-- The ascending list of occupied slot indices: those `i` in
`[0, capacity_)` whose control byte is non-negative. -/
def occupied_indices (settings : Settings) : List Nat :=
  (List.range settings.capacity_).filter (fun i => decide (0 ≤ ctrlAt settings i))

/-- The control-byte scan loop of `absl_get_nodes` (src/absl.py lines
152-155): for each index in turn, read the control byte as a signed value and,
if it is non-negative, read and yield slot `i` of the slot array through the
`slot_type` pointer cast. An element read outside the modelled array contents
is represented as a memory error, so a returned `.ok` certifies that only
in-range reads happened. -/
def scan_slots (settings : Settings) : List Nat → Except PyErr (List GVal)
  | [] => .ok []
  | i :: rest =>
    match settings.control_[i]? with
    | none => .error (.gdbError "Cannot access memory".data)
    | some ctrl_t =>
      if 0 ≤ ctrl_t then
        match settings.slots_[i]? with
        | none => .error (.gdbError "Cannot access memory".data)
        | some v =>
          match scan_slots settings rest with
          | .ok tail => .ok (v :: tail)
          | .error e => .error e
      else scan_slots settings rest

/-- The source function `absl_get_nodes` (src/absl.py lines 136-155), given the already-resolved
settings value and the outcome `slot_type_lookup` of the `lookup_type` call
for `<table-type>::slot_type`: short-circuit to the empty sequence when the
reported size is 0, otherwise resolve the slot type and scan all `capacity_`
control bytes in ascending index order. -/
def absl_get_nodes (slot_type_lookup : Except PyErr GdbType) (settings : Settings) :
    Except PyErr (List GVal) :=
  if absl_container_size settings = 0 then .ok []
  else
    match slot_type_lookup with
    | .error e => .error e
    | .ok _ => scan_slots settings (List.range settings.capacity_)

lemma scan_slots_eq (settings : Settings) (l : List Nat)
    (hl : ∀ i ∈ l, i < settings.control_.length ∧ i < settings.slots_.length) :
    scan_slots settings l =
      .ok ((l.filter (fun i => decide (0 ≤ ctrlAt settings i))).map (slotAt settings)) := by
  induction l with
  | nil => rfl
  | cons i rest ih =>
    obtain ⟨hic, his⟩ := hl i (List.mem_cons_self i rest)
    have hcs : settings.control_[i]? = some settings.control_[i] := List.getElem?_eq_getElem hic
    have hss : settings.slots_[i]? = some settings.slots_[i] := List.getElem?_eq_getElem his
    have hctrl : ctrlAt settings i = settings.control_[i] := by simp [ctrlAt, hcs]
    have hslot : slotAt settings i = settings.slots_[i] := by simp [slotAt, hss]
    have ihr := ih (fun j hj => hl j (List.mem_cons_of_mem i hj))
    by_cases hge : (0 : Int) ≤ settings.control_[i]
    · simp only [scan_slots, hcs, if_pos hge, hss, ihr, List.filter_cons]
      simp [hctrl, hslot, hge]
    · simp only [scan_slots, hcs, if_neg hge, ihr, List.filter_cons]
      simp [hctrl, hge]

/-- C1: for every table whose settings have capacity `c`, whose control bytes
(all signed 8-bit values) have exactly `k` non-negative entries among indices
`[0, c)`, and whose reported size is non-zero (with a successful `slot_type`
lookup), `absl_get_nodes` yields exactly `k` elements — one per index `i` in
`[0, c)` whose control byte is non-negative, in ascending index order, each
read from slot `i` of the slot array through the `slot_type` pointer cast. -/
theorem C1_walker_yields_occupied (lt : Except PyErr GdbType) (t : GdbType)
    (settings : Settings) (c k : Nat)
    (hlt : lt = .ok t)
    (hc : settings.capacity_ = c)
    (hsize : absl_container_size settings ≠ 0)
    (hctrl : c ≤ settings.control_.length)
    (hslots : c ≤ settings.slots_.length)
    (hsigned : ∀ b ∈ settings.control_, -128 ≤ b ∧ b ≤ 127)
    (hk : (List.range c).countP (fun i => decide (0 ≤ ctrlAt settings i)) = k) :
    absl_get_nodes lt settings = .ok ((occupied_indices settings).map (slotAt settings)) ∧
    (occupied_indices settings).length = k ∧
    List.Sorted (· < ·) (occupied_indices settings) ∧
    (∀ i, i ∈ occupied_indices settings ↔ (i < c ∧ 0 ≤ ctrlAt settings i)) := by
  subst hc
  refine ⟨?_, ?_, ?_, ?_⟩
  · unfold absl_get_nodes
    rw [if_neg hsize, hlt]
    apply scan_slots_eq
    intro i hi
    rw [ List.mem_range] at hi
    omega
  · unfold occupied_indices
    rw [← List.countP_eq_length_filter]
    exact hk
  · exact List.Pairwise.filter _ (List.pairwise_lt_range _)
  · intro i
    unfold occupied_indices
    simp [ List.mem_filter, List.mem_range]

/-- C1 witness: the walker theorem applied to the spec's concrete scenario —
capacity 7, control bytes `[-1,-1,0,0,-1,0,-1]`, reported size 3 — which
yields the slots at indices 2, 3, 5 in that order. -/
theorem C1_witness :
    absl_get_nodes (.ok "slot".data)
      ⟨7, [-1, -1, 0, 0, -1, 0, -1],
       [.base 10, .base 11, .base 12, .base 13, .base 14, .base 15, .base 16], .ok 3⟩
      = .ok [.base 12, .base 13, .base 15] ∧
    (occupied_indices
      ⟨7, [-1, -1, 0, 0, -1, 0, -1],
       [.base 10, .base 11, .base 12, .base 13, .base 14, .base 15, .base 16], .ok 3⟩).length
      = 3 :=
  have h := C1_walker_yields_occupied (.ok "slot".data) "slot".data
    ⟨7, [-1, -1, 0, 0, -1, 0, -1],
     [.base 10, .base 11, .base 12, .base 13, .base 14, .base 15, .base 16], .ok 3⟩ 7 3
    rfl rfl (by decide) (by decide) (by decide) (by decide) (by decide)
  ⟨by rw [h.1]; rfl, h.2.1⟩

/-- C5: for every table whose reported size is 0 — and likewise for every
table of capacity 0 (once the `slot_type` lookup succeeds; a size of 0 returns
before that lookup is even attempted) — the slot walker yields the empty
sequence and reads no element of the control-byte array or of the slot array:
the result is `.ok []` for EVERY contents of those two arrays, including
contents too short to read a single element. -/
theorem C5_empty_no_reads (settings : Settings) (lt : Except PyErr GdbType) :
    (absl_container_size settings = 0 →
      ∀ ctrl slots,
        absl_get_nodes lt { settings with control_ := ctrl, slots_ := slots } = .ok []) ∧
    (settings.capacity_ = 0 → ∀ t, lt = .ok t →
      ∀ ctrl slots,
        absl_get_nodes lt { settings with control_ := ctrl, slots_ := slots } = .ok []) := by
  constructor
  · intro h0 ctrl slots
    have h1 : absl_container_size { settings with control_ := ctrl, slots_ := slots } = 0 := h0
    simp [absl_get_nodes, h1]
  · intro hcap t hlt ctrl slots
    by_cases h0 : absl_container_size { settings with control_ := ctrl, slots_ := slots } = 0
    · simp [absl_get_nodes, h0]
    · unfold absl_get_nodes
      rw [if_neg h0, hlt]
      have h2 : ({ settings with control_ := ctrl, slots_ := slots } : Settings).capacity_
          = 0 := hcap
      rw [h2]
      rfl

/-- C5 witness: the theorem applied to a size-0 table whose control bytes are
all non-negative and whose slot array is empty — the walker returns the empty
sequence without reading either array (here the `slot_type` lookup outcome is
even an error, which the size-0 short-circuit never reaches). -/
theorem C5_witness :
    absl_get_nodes (.error (.gdbError "no slot type".data))
      ⟨7, [120, 120], [], .ok 0⟩ = .ok [] :=
  (C5_empty_no_reads ⟨7, [], [], .ok 0⟩ (.error (.gdbError "no slot type".data))).1
    rfl [120, 120] []

/-- Labeling loop of `AbslFlatHashSetPrinter.children` (src/absl.py lines
202-207): label each yielded element with the running counter. -/
def set_children_loop : Nat → List GVal → List (List Char × GVal)
  | _, [] => []
  | count, v :: rest => ((Nat.repr count).data, v) :: set_children_loop (count + 1) rest

/-- The source function `AbslFlatHashSetPrinter.children` (src/absl.py lines 195-207): one
index-labeled child per element yielded by `absl_get_nodes`. -/
def AbslFlatHashSetPrinter_children (lt : Except PyErr GdbType) (settings : Settings) :
    Except PyErr (List (List Char × GVal)) :=
  match absl_get_nodes lt settings with
  | .error e => .error e
  | .ok ns => .ok (set_children_loop 0 ns)

/-- Loop of `AbslNodeHashSetPrinter.children` (src/absl.py lines 187-193):
each yielded child is the dereference of the slot's pointer value, labeled by
the running counter. -/
def node_set_children_loop : Nat → List GVal → Except PyErr (List (List Char × GVal))
  | _, [] => .ok []
  | count, v :: rest =>
    match v.dereference with
    | .error e => .error e
    | .ok d =>
      match node_set_children_loop (count + 1) rest with
      | .error e => .error e
      | .ok tail => .ok (((Nat.repr count).data, d) :: tail)

/-- The source function `AbslNodeHashSetPrinter.children` (src/absl.py lines 180-193). -/
def AbslNodeHashSetPrinter_children (lt : Except PyErr GdbType) (settings : Settings) :
    Except PyErr (List (List Char × GVal)) :=
  match absl_get_nodes lt settings with
  | .error e => .error e
  | .ok ns => node_set_children_loop 0 ns

/-- Loop of `AbslFlatHashMapPrinter.children` (src/absl.py lines 257-264):
each occupied slot yields an index-labeled key read from the slot's `key`
field, then an index-labeled value read through the slot's `value.second`
fields, the counter advancing by two. -/
def flat_map_children_loop : Nat → List GVal → Except PyErr (List (List Char × GVal))
  | _, [] => .ok []
  | count, kvp :: rest =>
    match kvp.getField "key".data with
    | .error e => .error e
    | .ok k =>
      match kvp.getField "value".data with
      | .error e => .error e
      | .ok vs =>
        match vs.getField "second".data with
        | .error e => .error e
        | .ok v =>
          match flat_map_children_loop (count + 2) rest with
          | .error e => .error e
          | .ok tail =>
            .ok (((Nat.repr count).data, k) :: ((Nat.repr (count + 1)).data, v) :: tail)

/-- The source function `AbslFlatHashMapPrinter.children` (src/absl.py lines 250-264). -/
def AbslFlatHashMapPrinter_children (lt : Except PyErr GdbType) (settings : Settings) :
    Except PyErr (List (List Char × GVal)) :=
  match absl_get_nodes lt settings with
  | .error e => .error e
  | .ok ns => flat_map_children_loop 0 ns

/-- Loop of `AbslNodeHashMapPrinter.children` (src/absl.py lines 240-247):
each occupied slot yields an index-labeled key from the pair's `first` field,
then an index-labeled value from its `second` field, the counter advancing by
two. -/
def node_map_children_loop : Nat → List GVal → Except PyErr (List (List Char × GVal))
  | _, [] => .ok []
  | count, kvp :: rest =>
    match kvp.getField "first".data with
    | .error e => .error e
    | .ok k =>
      match kvp.getField "second".data with
      | .error e => .error e
      | .ok v =>
        match node_map_children_loop (count + 2) rest with
        | .error e => .error e
        | .ok tail =>
          .ok (((Nat.repr count).data, k) :: ((Nat.repr (count + 1)).data, v) :: tail)

/-- The source function `AbslNodeHashMapPrinter.children` (src/absl.py lines 233-247). -/
def AbslNodeHashMapPrinter_children (lt : Except PyErr GdbType) (settings : Settings) :
    Except PyErr (List (List Char × GVal)) :=
  match absl_get_nodes lt settings with
  | .error e => .error e
  | .ok ns => node_map_children_loop 0 ns

lemma set_children_loop_length (count : Nat) (ns : List GVal) :
    (set_children_loop count ns).length = ns.length := by
  induction ns generalizing count with
  | nil => rfl
  | cons v rest ih => simp [set_children_loop, ih]

lemma node_set_children_loop_length (ns : List GVal) (count : Nat)
    (l : List (List Char × GVal)) (h : node_set_children_loop count ns = .ok l) :
    l.length = ns.length := by
  induction ns generalizing count l with
  | nil =>
    simp only [node_set_children_loop] at h
    cases h
    rfl
  | cons v rest ih =>
    simp only [node_set_children_loop] at h
    cases hd : v.dereference with
    | error e => rw [hd] at h; exact Except.noConfusion h
    | ok d =>
      rw [hd] at h
      cases ht : node_set_children_loop (count + 1) rest with
      | error e => rw [ht] at h; exact Except.noConfusion h
      | ok tail =>
        rw [ht] at h
        cases h
        simp [ih (count + 1) tail ht]

lemma flat_map_children_loop_length (ns : List GVal) (count : Nat)
    (l : List (List Char × GVal)) (h : flat_map_children_loop count ns = .ok l) :
    l.length = 2 * ns.length := by
  induction ns generalizing count l with
  | nil =>
    simp only [flat_map_children_loop] at h
    cases h
    rfl
  | cons kvp rest ih =>
    simp only [flat_map_children_loop] at h
    split at h
    · exact Except.noConfusion h
    · split at h
      · exact Except.noConfusion h
      · split at h
        · exact Except.noConfusion h
        · split at h
          · exact Except.noConfusion h
          · cases h
            rename_i tail htail
            have := ih (count + 2) tail htail
            simp [this]
            omega

lemma node_map_children_loop_length (ns : List GVal) (count : Nat)
    (l : List (List Char × GVal)) (h : node_map_children_loop count ns = .ok l) :
    l.length = 2 * ns.length := by
  induction ns generalizing count l with
  | nil =>
    simp only [node_map_children_loop] at h
    cases h
    rfl
  | cons kvp rest ih =>
    simp only [node_map_children_loop] at h
    cases hk : kvp.getField "first".data with
    | error e => rw [hk] at h; exact Except.noConfusion h
    | ok k =>
      rw [hk] at h
      cases hv : kvp.getField "second".data with
      | error e => rw [hv] at h; exact Except.noConfusion h
      | ok v =>
        rw [hv] at h
        cases ht : node_map_children_loop (count + 2) rest with
        | error e => rw [ht] at h; exact Except.noConfusion h
        | ok tail =>
          rw [ht] at h
          cases h
          have := ih (count + 2) tail ht
          simp [this]
          omega

/-- C8: for every table on which the slot walker yields `k` occupied slots,
the flat-set printer's children sequence has exactly `k` labeled children, the
node-set printer's children sequence (whenever it is produced without error)
has exactly `k`, and both map printers' children sequences (whenever produced
without error) have exactly `2 * k` labeled children, alternating key then
value per occupied slot. -/
theorem C8_children_counts (lt : Except PyErr GdbType) (settings : Settings)
    (ns : List GVal) (k : Nat)
    (hns : absl_get_nodes lt settings = .ok ns)
    (hk : ns.length = k) :
    AbslFlatHashSetPrinter_children lt settings = .ok (set_children_loop 0 ns) ∧
    (set_children_loop 0 ns).length = k ∧
    (∀ l, AbslNodeHashSetPrinter_children lt settings = .ok l → l.length = k) ∧
    (∀ l, AbslFlatHashMapPrinter_children lt settings = .ok l → l.length = 2 * k) ∧
    (∀ l, AbslNodeHashMapPrinter_children lt settings = .ok l → l.length = 2 * k) := by
  subst hk
  refine ⟨?_, set_children_loop_length 0 ns, ?_, ?_, ?_⟩
  · unfold AbslFlatHashSetPrinter_children
    rw [hns]
  · intro l hl
    unfold AbslNodeHashSetPrinter_children at hl
    rw [hns] at hl
    exact node_set_children_loop_length ns 0 l hl
  · intro l hl
    unfold AbslFlatHashMapPrinter_children at hl
    rw [hns] at hl
    exact flat_map_children_loop_length ns 0 l hl
  · intro l hl
    unfold AbslNodeHashMapPrinter_children at hl
    rw [hns] at hl
    exact node_map_children_loop_length ns 0 l hl

/-- A concrete map slot for the C8 witness: a struct with the `key` and
`value.second` fields read by the flat-map printer (the node-map `first` /
`second` fields are also present). -/
def exMapSlot (i : Nat) : GVal :=
  .struct [("key".data, .base i),
           ("value".data, .struct [("second".data, .base (i + 1))]),
           ("first".data, .base (i + 2)),
           ("second".data, .base (i + 3))]

/-- C8 witness: the children-count theorem applied to a concrete table of
capacity 3 with occupied slots at indices 0 and 2 (k = 2): the flat-map
printer produces exactly `2 * 2` alternating key/value children. -/
theorem C8_witness :
    AbslFlatHashMapPrinter_children (.ok "slot".data)
      ⟨3, [0, -1, 1], [exMapSlot 10, exMapSlot 20, exMapSlot 30], .ok 2⟩
      = .ok [("0".data, .base 10), ("1".data, .base 11),
             ("2".data, .base 30), ("3".data, .base 31)] ∧
    ([(("0".data : List Char), (GVal.base 10 : GVal)), ("1".data, .base 11),
      ("2".data, .base 30), ("3".data, .base 31)]).length = 2 * 2 := by
  have hnodes : absl_get_nodes (.ok "slot".data)
      ⟨3, [0, -1, 1], [exMapSlot 10, exMapSlot 20, exMapSlot 30], .ok 2⟩
      = .ok [exMapSlot 10, exMapSlot 30] := rfl
  refine ⟨rfl, ?_⟩
  exact (C8_children_counts (.ok "slot".data)
      ⟨3, [0, -1, 1], [exMapSlot 10, exMapSlot 20, exMapSlot 30], .ok 2⟩
      [exMapSlot 10, exMapSlot 30] 2 hnodes rfl).2.2.2.1
      [("0".data, .base 10), ("1".data, .base 11), ("2".data, .base 30), ("3".data, .base 31)]
      rfl

/-- The source function `AbslHashSetPrinterBase.to_string` (src/absl.py lines 171-177), given the
printer's variant string, the declared element type's rendered name, and the
already-resolved settings value: the one-line summary with the element count
produced by `absl_container_size`. -/
def AbslHashSetPrinterBase_to_string (to_str elemTy : List Char) (settings : Settings) :
    List Char :=
  "absl::".data ++ to_str ++ "_hash_set<".data ++ elemTy ++ "> with ".data
    ++ (Nat.repr (absl_container_size settings)).data ++ " elems ".data

/-- C10: for every settings value on which reading the nested field chain
`settings["compressed_tuple_"]["value"]` raises any exception whatsoever,
`absl_container_size` returns the `capacity_` field; consequently, in that
layout the element count reported in the printer summary string is the
capacity field, and the `size == 0` short-circuit of `absl_get_nodes` fires
exactly on `capacity_ = 0` tables (yielding the empty sequence regardless of
the `slot_type` lookup outcome). -/
theorem C10_size_fallback (settings : Settings) (e : PyErr)
    (herr : settings.compressed_tuple_value = .error e) :
    absl_container_size settings = settings.capacity_ ∧
    (∀ to_str elemTy, AbslHashSetPrinterBase_to_string to_str elemTy settings =
      "absl::".data ++ to_str ++ "_hash_set<".data ++ elemTy ++ "> with ".data
        ++ (Nat.repr settings.capacity_).data ++ " elems ".data) ∧
    (settings.capacity_ = 0 → ∀ lt, absl_get_nodes lt settings = .ok []) := by
  have hsz : absl_container_size settings = settings.capacity_ := by
    unfold absl_container_size
    rw [herr]
  refine ⟨hsz, ?_, ?_⟩
  · intro ts ety
    unfold AbslHashSetPrinterBase_to_string
    rw [hsz]
  · intro hcap lt
    have h0 : absl_container_size settings = 0 := by rw [hsz, hcap]
    simp [absl_get_nodes, h0]

/-- C10 witness: the fallback theorem applied to a concrete empty-capacity
settings value whose compressed-tuple read fails: the reported size is the
capacity (0), the summary string shows 0 elements, and the walker yields the
empty sequence. -/
theorem C10_witness :
    absl_container_size ⟨0, [], [], .error (.gdbError "no member".data)⟩ = 0 ∧
    AbslHashSetPrinterBase_to_string "flat".data "int".data
      ⟨0, [], [], .error (.gdbError "no member".data)⟩
      = "absl::flat_hash_set<int> with 0 elems ".data ∧
    absl_get_nodes (.error (.otherExc "x".data))
      ⟨0, [], [], .error (.gdbError "no member".data)⟩ = .ok [] :=
  have h := C10_size_fallback ⟨0, [], [], .error (.gdbError "no member".data)⟩
    (.gdbError "no member".data) rfl
  ⟨h.1, by rw [h.2.1]; rfl, h.2.2 rfl _⟩

/-- The scope handle a gdb block stands for; scopes are opaque and identified
by a number in this model. -/
abbrev Scope := Nat

/-- The layout oracle: the outcomes of gdb's type lookups (default scope and
a given block scope) and of resolving the main program symbol's global block
(the `gdb.lookup_symbol("main")[0].symtab.global_block()` step). -/
structure GdbOracle where
  lookupType : List Char → Except PyErr GdbType
  lookupTypeIn : List Char → Scope → Except PyErr GdbType
  mainGlobalScope : Except PyErr Scope

/-- Python `str(exc)` for the modelled exceptions. -/
def PyErr.msg : PyErr → List Char
  | .gdbError m => m
  | .valueError m => m
  | .otherExc m => m

/-- The message of the error raised by `lookup_type` when both attempts fail
(src/absl.py line 46): it joins both underlying failure messages. -/
def lookup_fail_msg (e1 e2 : PyErr) : List Char :=
  "Failed to get type, tried:\n".data ++ e1.msg ++ "\n".data ++ e2.msg

/-- State of the module-level global variable `MAIN_GLOBAL_BLOCK`: `none`
models the UNBOUND name (reading it raises `NameError`) — the state in which
loading src/absl.py leaves it, since the module declares it only with
`global` inside `lookup_type` and never assigns it at top level — while
`some mb` models the name bound to the value `mb`, with `mb = none` standing
for Python's `None` (the value the upstream mongo script initializes the
global to, an assignment this tailored copy dropped). -/
abbrev MainGlobalBlockState := Option (Option Scope)

/-- The state of `MAIN_GLOBAL_BLOCK` in the program as loaded: unbound. -/
def module_load_main_global_block : MainGlobalBlockState := none

/-- The `NameError` raised when line 38 of the source reads the unbound
global. -/
def main_global_block_name_error : PyErr :=
  .otherExc "name MAIN_GLOBAL_BLOCK is not defined".data

/-- The source function `lookup_type` (src/absl.py lines 22-46): try the
oracle's default lookup first; on any failure, line 38 reads the module
global `MAIN_GLOBAL_BLOCK` — raising `NameError` when the name is unbound —
resolves the main symbol's global block when the global is `None` (line 39),
then retries the lookup in that block; when both lookup attempts fail it
raises a `gdb.error` carrying both messages (line 46). The state-passed
`mainGlobalBlock` models the module global, returned updated. -/
def lookup_type (oracle : GdbOracle) (mainGlobalBlock : MainGlobalBlockState)
    (gdb_type_str : List Char) : Except PyErr GdbType × MainGlobalBlockState :=
  match oracle.lookupType gdb_type_str with
  | .ok t => (.ok t, mainGlobalBlock)
  | .error e1 =>
    match mainGlobalBlock with
    | none => (.error main_global_block_name_error, none)
    | some none =>
      match oracle.mainGlobalScope with
      | .error em => (.error em, some none)
      | .ok blk =>
        match oracle.lookupTypeIn gdb_type_str blk with
        | .ok t => (.ok t, some (some blk))
        | .error e2 => (.error (.gdbError (lookup_fail_msg e1 e2)), some (some blk))
    | some (some blk) =>
      match oracle.lookupTypeIn gdb_type_str blk with
      | .ok t => (.ok t, some (some blk))
      | .error e2 => (.error (.gdbError (lookup_fail_msg e1 e2)), some (some blk))

/-- C6 (code bug): src/absl.py never initializes the module global
`MAIN_GLOBAL_BLOCK` (the upstream script's top-level `MAIN_GLOBAL_BLOCK =
None` was dropped), so in the state the module load leaves behind, whenever
the default-scope lookup fails, line 38's read of the unbound name raises
`NameError` before any retry — for EVERY oracle, whatever its main-symbol
resolution and block-scoped lookup would return, and for every type name —
and the global stays unbound, so every later call fails the same way. The
main-scope retry, the caching of the scope handle, and the aggregated
two-message error that the claim (and the function's own docstring) describe
are unreachable; only the successful default-scope path behaves as claimed. -/
theorem C6_unbound_global_name_error (oracle : GdbOracle) (s : List Char) :
    (∀ t, oracle.lookupType s = .ok t →
      lookup_type oracle module_load_main_global_block s
        = (.ok t, module_load_main_global_block)) ∧
    (∀ e1, oracle.lookupType s = .error e1 →
      lookup_type oracle module_load_main_global_block s
        = (.error main_global_block_name_error, module_load_main_global_block)) := by
  constructor
  · intro t h
    unfold lookup_type
    rw [h]
  · intro e1 h
    unfold lookup_type
    rw [h]
    rfl

/-- A concrete oracle for the C6 witness: the default-scope lookup only knows
the type `Good`, while the main global block would resolve to scope 7 and
scope 7 would resolve every name — none of which is ever consulted. -/
def exOracleC6 : GdbOracle where
  lookupType := fun s =>
    if s = "Good".data then .ok "Good".data
    else .error (.gdbError "No type named first".data)
  lookupTypeIn := fun s blk =>
    if blk = 7 then .ok (s ++ "@main".data)
    else .error (.gdbError "No type named second".data)
  mainGlobalScope := .ok 7

/-- C6 witness: the bug theorem applied to the concrete oracle in the
module-load state — the failing default lookup surfaces as `NameError` even
though this oracle could have resolved both the main block and the name. -/
theorem C6_bug_witness :
    lookup_type exOracleC6 module_load_main_global_block "Bad".data
      = (.error main_global_block_name_error, module_load_main_global_block) :=
  (C6_unbound_global_name_error exOracleC6 "Bad".data).2
    (.gdbError "No type named first".data) rfl

/-- The source's test distinguishing gdb's type-not-found failure class: only
`gdb.error` is caught and only when `err.args[0].startswith("No type named ")`
(src/absl.py lines 109-111). -/
def isTypeNotFound : PyErr → Bool
  | .gdbError m => ("No type named ".data).isPrefixOf m
  | _ => false

/-- First candidate spelling of the compressed-tuple storage type: the version
namespace inserted separately into the wrapper name and into the bracketed
template-argument substring (src/absl.py lines 103-108). -/
def settings_storage_cand1 : List Char :=
  ((absl_insert_version_after_absl
      "absl::container_internal::internal_compressed_tuple::Storage".data).toOption.getD [])
    ++ ((absl_insert_version_after_absl
      "<absl::container_internal::CommonFields, 0, false>".data).toOption.getD [])

/-- Second candidate spelling: the version namespace inserted only once, into
the combined name (src/absl.py lines 116-121), so the template argument stays
unversioned. -/
def settings_storage_cand2 : List Char :=
  (absl_insert_version_after_absl
      ("absl::container_internal::internal_compressed_tuple::Storage".data
        ++ "<absl::container_internal::CommonFields, 0, false>".data)).toOption.getD []

lemma settings_storage_cand1_eq :
    settings_storage_cand1 =
      ("absl::lts_20240116::container_internal::internal_compressed_tuple::Storage"
        ++ "<absl::lts_20240116::container_internal::CommonFields, 0, false>").data := rfl

lemma settings_storage_cand2_eq :
    settings_storage_cand2 =
      ("absl::lts_20240116::container_internal::internal_compressed_tuple::Storage"
        ++ "<absl::container_internal::CommonFields, 0, false>").data := rfl

/-- A table value as accessed by `absl_get_settings`: the outcome of
`val["settings_"].cast(storage_type)["value"]` as a function of the resolved
storage type (the cast is a reinterpretation and the `Storage` specialisation
always has a `value` member, so on a table value this read is total), plus the
rendered `str(val.type.strip_typedefs())` name used for the `slot_type`
lookup. -/
structure TableVal where
  settings_cast_value : GdbType → Settings
  type_name : List Char

/-- The source function `absl_get_settings` (src/absl.py lines 100-126): look up the storage type
under the first candidate spelling; on a `gdb.error` whose message starts with
`No type named ` retry with the second candidate spelling (whose own failure
propagates unhandled); any other failure of the first lookup re-raises
immediately. Finally cast the table's `settings_` field to the resolved
storage type and read its `value` field. -/
def absl_get_settings (oracle : GdbOracle) (val : TableVal) : Except PyErr Settings :=
  match oracle.lookupType settings_storage_cand1 with
  | .ok ty => .ok (val.settings_cast_value ty)
  | .error e =>
    if isTypeNotFound e then
      match oracle.lookupType settings_storage_cand2 with
      | .ok ty => .ok (val.settings_cast_value ty)
      | .error e2 => .error e2
    else .error e

/-- C4: for every table value, when the storage-type lookup under the first
candidate spelling fails with the type-not-found failure class (a `gdb.error`
whose message starts with `No type named `), `absl_get_settings` retries with
the second candidate spelling and succeeds without raising whenever that
fallback lookup succeeds; and any failure of the first lookup that is not
type-not-found propagates immediately — for EVERY outcome of the second
candidate's lookup, which is therefore never attempted. -/
theorem C4_settings_fallback (oracle : GdbOracle) (val : TableVal) :
    (∀ msg ty, oracle.lookupType settings_storage_cand1 = .error (.gdbError msg) →
      ("No type named ".data).isPrefixOf msg = true →
      oracle.lookupType settings_storage_cand2 = .ok ty →
      absl_get_settings oracle val = .ok (val.settings_cast_value ty)) ∧
    (∀ e, oracle.lookupType settings_storage_cand1 = .error e →
      isTypeNotFound e = false →
      absl_get_settings oracle val = .error e) := by
  constructor
  · intro msg ty h1 hpre h2
    have htnf : isTypeNotFound (.gdbError msg) = true := by
      simp [isTypeNotFound, hpre]
    unfold absl_get_settings
    rw [h1]
    dsimp only
    rw [if_pos htnf]
    rw [h2]
  · intro e h1 hnot
    unfold absl_get_settings
    rw [h1]
    dsimp only
    rw [if_neg (by simp [hnot])]

/-- A concrete oracle for the C4 witness: only the second candidate spelling
resolves; every other name fails with gdb's type-not-found message. -/
def exOracleC4 : GdbOracle where
  lookupType := fun s =>
    if s = settings_storage_cand2 then .ok "StorageType".data
    else .error (.gdbError ("No type named ".data ++ s))
  lookupTypeIn := fun _ _ => .error (.gdbError "unused".data)
  mainGlobalScope := .error (.gdbError "unused".data)

/-- The settings value produced by the C4 witness table. -/
def exSettingsC4 : Settings := ⟨0, [], [], .ok 0⟩

/-- The table value used by the C4 witness. -/
def exTableValC4 : TableVal := ⟨fun _ => exSettingsC4, "absl::flat_hash_set<int>".data⟩

/-- C4 witness: the fallback theorem applied to the concrete oracle on which
the first candidate lookup fails with type-not-found and the second candidate
succeeds, so the whole `absl_get_settings` call succeeds without raising. -/
theorem C4_witness :
    absl_get_settings exOracleC4 exTableValC4 = .ok exSettingsC4 :=
  (C4_settings_fallback exOracleC4 exTableValC4).1
    ("No type named ".data ++ settings_storage_cand1) "StorageType".data
    rfl (by decide) rfl
